import Mathlib

/-!
Verification of the `app` package of `golang-app-framework`.

The Go source (`src/app/app.go`) defines an `App` struct bundling the
process arguments, environment, a cancellable context, stdio handles and
an exit handler, plus a lazily-created logger (gomol), a single-shot
error channel and a concurrent environment lookup.  We embed the package
shallowly: the struct becomes `AppState`, each method a Lean function (or,
for the nondeterministic concurrent lookup, a relation on results), Go
channels become explicit buffer/closed records, and mutex-serialized
method calls become sequential applications of the state function.
-/

namespace App

/-- A Go `error` value; `none` models the `nil` error (the zero value of
the `error` interface type). -/
def GoError := Option String

instance : DecidableEq GoError := by unfold GoError; infer_instance

/-- The zero value a Go receive yields from a closed, drained channel of
type `chan error`. -/
def nilError : GoError := none

/-- Embeds `strings.SplitN(line, "=", 2)` at the character level: find the
first `'='`; if present return the text before it and everything after it. -/
def splitFirstEq : List Char → Option (List Char × List Char)
  | [] => none
  | c :: cs =>
    if c = '=' then some ([], cs)
    else (splitFirstEq cs).map (fun p => (c :: p.1, p.2))

/-- Result of `strings.SplitN(line, "=", 2)`: a one-element list when `line` has no
`'='`, otherwise the prefix before the first `'='` and the remainder. -/
def goSplitN2 (line : String) : List String :=
  match splitFirstEq line.data with
  | some (k, v) => [String.mk k, String.mk v]
  | none => [line]

/-- The body of one per-entry goroutine of `LookupEnv` (src/app/app.go:159-163),
after the cancellation check: split the entry on the first `'='` and, when
`len(slice) == 2 && slice[0] == key`, offer `slice[1]` on the channel. -/
def taskMatch (key line : String) : Option String :=
  match goSplitN2 line with
  | [k, v] => if k = key then some v else none
  | _ => none

/-- What one per-entry goroutine sends, including the `select`/`ctx.Done()`
check (src/app/app.go:155-158): a cancelled context makes every task return
without sending. -/
def taskSend (cancelled : Bool) (key line : String) : Option String :=
  if cancelled then none else taskMatch key line

/-- The multiset of values the per-entry goroutines offer to send on the
result channel, in environment order. -/
def lookupSends (env : List String) (cancelled : Bool) (key : String) : List String :=
  env.filterMap (taskSend cancelled key)

/-- The cached `*gomol.Base` logger.  Go pointers have identity, so each
created instance carries a fresh `id`; `timestampPrefix` records the template
choice of src/app/app.go:86-89 (`a.Stderr == os.Stderr` adds the timestamp
prefix) and `initialized` the `InitLoggers`/`ShutdownLoggers` state. -/
structure GomolBase where
  id : Nat
  timestampPrefix : Bool
  initialized : Bool
deriving DecidableEq, Repr

/-- The `chan error` created by `ensureErrorChannel` (`make(chan error, 1)`):
a Go channel value with its identity (`id`), its capacity, its buffered
contents and its closed flag. -/
structure ErrChan where
  id : Nat
  capacity : Nat
  buffer : List GoError
  closed : Bool
deriving DecidableEq

/-- The `App` struct (src/app/app.go:20-34) together with the allocator
freshness counters that stand in for Go pointer/channel identity.
`contextCancelled` is the observable state of `Context.Done()`;
`hasExitHandler` models `ExitHandler != nil` and `exitHandlerReturns`
whether the configured handler returns control to `Exit` instead of
transferring control away.  `stderrIsOsStderr` models `Stderr == os.Stderr`. -/
structure AppState where
  Arguments : List String
  Environment : List String
  contextCancelled : Bool
  stderrIsOsStderr : Bool
  hasExitHandler : Bool
  exitHandlerReturns : Bool
  logger : Option GomolBase
  nextLoggerId : Nat
  errch : Option ErrChan
  nextChanId : Nat
deriving DecidableEq

/-- The logger instance the creation branch of `Logger()`
(src/app/app.go:77-114) builds: console logger on `a.Stderr`, timestamp
prefix exactly when `a.Stderr == os.Stderr`, then `InitLoggers`. -/
def freshLogger (s : AppState) : GomolBase :=
  { id := s.nextLoggerId
    timestampPrefix := s.stderrIsOsStderr
    initialized := true }

/-- Method `(a *App) Logger()` (src/app/app.go:73-118).  The method body runs under
`a.loggerMu`, so concurrent calls are serialized; one serialized call is this
state transition returning the cached or newly created instance. -/
def Logger (s : AppState) : AppState × GomolBase :=
  match s.logger with
  | some l => (s, l)
  | none =>
    ({ s with logger := some (freshLogger s), nextLoggerId := s.nextLoggerId + 1 },
     freshLogger s)

/-- A mutex-serialized sequence of `n` `Logger()` calls (each racing caller
acquires `a.loggerMu` in some order; this lists the returned instances in
that order). -/
def loggerCalls : AppState → Nat → AppState × List GomolBase
  | s, 0 => (s, [])
  | s, n + 1 =>
    let r := Logger s
    let rest := loggerCalls r.1 n
    (rest.1, r.2 :: rest.2)

/-- Method `(a *App) ensureErrorChannel()` (src/app/app.go:120-127): under
`a.errchMu`, create `make(chan error, 1)` if absent. -/
def ensureErrorChannel (s : AppState) : AppState :=
  match s.errch with
  | some _ => s
  | none =>
    { s with
      errch := some { id := s.nextChanId, capacity := 1, buffer := [], closed := false }
      nextChanId := s.nextChanId + 1 }

/-- Method `(a *App) Errors()` (src/app/app.go:130-133): ensure the channel exists
and return it; the returned `Nat` is the identity of the channel value the
caller receives. -/
def Errors (s : AppState) : AppState × Nat :=
  let s₁ := ensureErrorChannel s
  match s₁.errch with
  | some c => (s₁, c.id)
  | none => (s₁, s₁.nextChanId)

/-- A mutex-serialized sequence of `n` `Errors()` calls, listing the channel
identities the callers receive. -/
def errorsCalls : AppState → Nat → AppState × List Nat
  | s, 0 => (s, [])
  | s, n + 1 =>
    let r := Errors s
    let rest := errorsCalls r.1 n
    (rest.1, r.2 :: rest.2)

/-- Outcome of a Go channel send `ch <- v`: it panics on a closed channel,
completes immediately while buffer space remains, and otherwise blocks until
a receiver arrives. -/
inductive SendResult where
  | ok (c : ErrChan)
  | panicked (msg : String)
  | blocked
deriving DecidableEq

/-- Semantics of `ch <- v` on a buffered Go channel. -/
def chanSend (c : ErrChan) (v : GoError) : SendResult :=
  if c.closed then .panicked "send on closed channel"
  else if c.buffer.length < c.capacity then .ok { c with buffer := c.buffer ++ [v] }
  else .blocked

/-- Semantics of a Go receive `v, ok := <-ch`: a buffered value yields
`(v, true)`, a closed drained channel yields the zero value and `false`,
and an open empty channel blocks (`none`). -/
def chanRecv (c : ErrChan) : Option ((GoError × Bool) × ErrChan) :=
  match c.buffer with
  | v :: rest => some ((v, true), { c with buffer := rest })
  | [] => if c.closed then some ((nilError, false), c) else none

/-- Result of running `HandleError`: the method either returns normally with
the new state, panics (the Go runtime panic of a send on a closed channel),
or would block forever waiting for a receiver. -/
inductive HandleErrorResult where
  | ok (s : AppState)
  | panicked (msg : String)
  | blocked
deriving DecidableEq

/-- Method `(a *App) HandleError(err)` (src/app/app.go:136-140): ensure the channel,
send the error on it, then close it. -/
def HandleError (s : AppState) (e : GoError) : HandleErrorResult :=
  let s₁ := ensureErrorChannel s
  match s₁.errch with
  | none => .blocked
  | some c =>
    match chanSend c e with
    | .panicked msg => .panicked msg
    | .blocked => .blocked
    | .ok c₁ => .ok { s₁ with errch := some { c₁ with closed := true } }

/-- The observable actions `Exit` performs, in order. -/
inductive ExitEvent where
  | shutdownLoggers (loggerId : Nat)
  | exitHandlerCall (code : Int)
  | osExitCall (code : Int)
deriving DecidableEq

/-- How `Exit` relinquishes control: `os.Exit` terminates the process, a
non-returning handler transfers control away, and a handler that returns
makes `Exit` itself panic. -/
inductive ExitOutcome where
  | osExitTerminated
  | handlerTookControl
  | panicked (msg : String)
deriving DecidableEq

structure ExitResult where
  state : AppState
  events : List ExitEvent
  outcome : ExitOutcome
deriving DecidableEq

/-- Method `(a *App) Exit(code)` (src/app/app.go:52-70): under `a.loggerMu`, shut
down the logger's sinks if one exists and is initialized and clear the
reference; then either `os.Exit(code)` or the configured handler, with
`panic("exit handler returned")` if the handler returns. -/
def Exit (s : AppState) (code : Int) : ExitResult :=
  let teardown : AppState × List ExitEvent :=
    match s.logger with
    | some l =>
      ({ s with logger := none },
       if l.initialized then [.shutdownLoggers l.id] else [])
    | none => (s, [])
  if s.hasExitHandler then
    if s.exitHandlerReturns then
      { state := teardown.1
        events := teardown.2 ++ [.exitHandlerCall code]
        outcome := .panicked "exit handler returned" }
    else
      { state := teardown.1
        events := teardown.2 ++ [.exitHandlerCall code]
        outcome := .handlerTookControl }
  else
    { state := teardown.1
      events := teardown.2 ++ [.osExitCall code]
      outcome := .osExitTerminated }

/-- Method `(a *App) LookupEnv(key)` (src/app/app.go:144-175) as a relation on
(pre-state, key, result, post-state).  One goroutine per environment entry
offers its match on an unbuffered channel (`taskSend`); a supervisor closes
the channel after `wg.Wait()`, which — because each sender's deferred
`wg.Done` runs only after its send is received — cannot happen while any
sender is pending; the caller performs a single receive.  Hence the call
returns `(v, true)` for some offered `v` when any goroutine offers one, and
`("", false)` exactly when none does.  The method reads `a.Environment` and
`a.Context` and writes no field, so the post-state equals the pre-state. -/
def LookupEnv (s : AppState) (key : String) (out : String × Bool)
    (s' : AppState) : Prop :=
  s' = s ∧
  ((∃ v, v ∈ lookupSends s.Environment s.contextCancelled key ∧ out = (v, true)) ∨
   (lookupSends s.Environment s.contextCancelled key = [] ∧ out = ("", false)))

/-- A handle on which neither `Errors` nor `HandleError` has acted yet: the
error channel is absent, or was created by `ensureErrorChannel` (capacity 1)
and is still open and empty. -/
def errchFresh (s : AppState) : Prop :=
  s.errch = none ∨
    ∃ c, s.errch = some c ∧ c.capacity = 1 ∧ c.buffer = [] ∧ c.closed = false

/-- The mocked handle of the test suite (`newApp` in src/app/app_test.go with
the scenario environment of the spec): buffered streams, a panicking exit
handler, a background context. -/
def sampleApp : AppState :=
  { Arguments := ["test"]
    Environment := ["HOME=/home/test", "PATH=/bin", "TEST=true"]
    contextCancelled := false
    stderrIsOsStderr := false
    hasExitHandler := true
    exitHandlerReturns := false
    logger := none
    nextLoggerId := 0
    errch := none
    nextChanId := 0 }

/-- State `sampleApp` after its context has been cancelled. -/
def cancelledApp : AppState := { sampleApp with contextCancelled := true }

/-- State `sampleApp` after one successful `HandleError`: the channel holds the
error and is closed. -/
def erroredApp : AppState :=
  { sampleApp with
    errch := some { id := 0, capacity := 1, buffer := [some "test error"], closed := true }
    nextChanId := 1 }

/-- State `sampleApp` after one `Logger()` call. -/
def loggedApp : AppState :=
  { sampleApp with
    logger := some { id := 0, timestampPrefix := false, initialized := true }
    nextLoggerId := 1 }

/-- State `sampleApp` with an exit handler that returns control. -/
def returningApp : AppState := { sampleApp with exitHandlerReturns := true }

/-! ### Lemmas about the lookup tasks -/

theorem taskSend_false (key line : String) :
    taskSend false key line = taskMatch key line := rfl

theorem taskSend_true (key line : String) : taskSend true key line = none := rfl

theorem splitFirstEq_of_not_mem (cs : List Char) (h : '=' ∉ cs) :
    splitFirstEq cs = none := by
  induction cs with
  | nil => rfl
  | cons c cs ih =>
    simp only [List.mem_cons, not_or] at h
    unfold splitFirstEq
    rw [if_neg fun hc => h.1 hc.symm, ih h.2]
    rfl

theorem taskMatch_of_not_mem (key line : String) (h : '=' ∉ line.data) :
    taskMatch key line = none := by
  unfold taskMatch goSplitN2
  rw [splitFirstEq_of_not_mem line.data h]

/-! ### The claims about `LookupEnv` -/

/-- C1: on an environment with exactly one entry whose key portion is `key`
(with value `V`) and a non-cancelled context, every result `LookupEnv` can
produce is `(V, true)`. -/
theorem lookupEnv_unique_key (s : AppState) (key V : String)
    (hc : s.contextCancelled = false)
    (hu : s.Environment.filterMap (taskMatch key) = [V]) :
    ∀ out s', LookupEnv s key out s' → out = (V, true) := by
  intro out s' h
  obtain ⟨-, h⟩ := h
  have hsends : lookupSends s.Environment s.contextCancelled key = [V] := by
    rw [hc]; exact hu
  rcases h with ⟨v, hv, rfl⟩ | ⟨hempty, rfl⟩
  · rw [hsends, List.mem_singleton] at hv
    rw [hv]
  · rw [hsends] at hempty
    cases hempty

/-- C1 witness: the spec's scenario environment, key `PATH`, value `/bin`. -/
theorem lookupEnv_unique_key_witness :
    sampleApp.contextCancelled = false ∧
    sampleApp.Environment.filterMap (taskMatch "PATH") = ["/bin"] ∧
    ("/bin", true) = ("/bin", true) :=
  ⟨rfl, by decide,
    lookupEnv_unique_key sampleApp "PATH" "/bin" rfl (by decide) ("/bin", true)
      sampleApp ⟨rfl, Or.inl ⟨"/bin", by decide, rfl⟩⟩⟩

/-- C2: when no environment entry matches `key` (in particular, when the
candidate entries are malformed, and on the empty list) every result of
`LookupEnv` is `("", false)`; and an entry without `'='` matches no key. -/
theorem lookupEnv_no_match (s : AppState) (key : String)
    (hn : ∀ e ∈ s.Environment, taskMatch key e = none) :
    (∀ out s', LookupEnv s key out s' → out = ("", false)) ∧
    (∀ k line, '=' ∉ line.data → taskMatch k line = none) := by
  refine ⟨?_, fun k line h => taskMatch_of_not_mem k line h⟩
  intro out s' h
  obtain ⟨-, h⟩ := h
  have hsends : lookupSends s.Environment s.contextCancelled key = [] := by
    unfold lookupSends
    rw [List.filterMap_eq_nil_iff]
    intro e he
    cases hcc : s.contextCancelled
    · rw [taskSend_false]; exact hn e he
    · rw [taskSend_true]
  rcases h with ⟨v, hv, rfl⟩ | ⟨-, rfl⟩
  · rw [hsends] at hv
    cases hv
  · rfl

/-- C2 witness: the scenario environment, with a missing key, plus a
malformed entry. -/
theorem lookupEnv_no_match_witness :
    (∀ e ∈ sampleApp.Environment, taskMatch "MISSING" e = none) ∧
    ("", false) = ("", false) ∧
    taskMatch "noequals" "noequals" = none :=
  ⟨by decide,
    (lookupEnv_no_match sampleApp "MISSING" (by decide)).1 ("", false) sampleApp
      ⟨rfl, Or.inr ⟨by decide, rfl⟩⟩,
    (lookupEnv_no_match sampleApp "MISSING" (by decide)).2 "noequals" "noequals"
      (by decide)⟩

/-- C3: with the context already cancelled, every result of `LookupEnv` is
`("", false)` whatever the environment holds. -/
theorem lookupEnv_cancelled (s : AppState) (key : String)
    (hc : s.contextCancelled = true) :
    ∀ out s', LookupEnv s key out s' → out = ("", false) := by
  intro out s' h
  obtain ⟨-, h⟩ := h
  have hsends : lookupSends s.Environment s.contextCancelled key = [] := by
    unfold lookupSends
    rw [List.filterMap_eq_nil_iff]
    intro e _
    rw [hc, taskSend_true]
  rcases h with ⟨v, hv, rfl⟩ | ⟨-, rfl⟩
  · rw [hsends] at hv
    cases hv
  · rfl

/-- C3 witness: the cancelled handle still carries `HOME=/home/test`, yet the
lookup of `HOME` yields `("", false)`. -/
theorem lookupEnv_cancelled_witness :
    cancelledApp.contextCancelled = true ∧
    ("HOME=/home/test" ∈ cancelledApp.Environment) ∧
    ("", false) = ("", false) :=
  ⟨rfl, by decide,
    lookupEnv_cancelled cancelledApp "HOME" rfl ("", false) cancelledApp
      ⟨rfl, Or.inr ⟨by decide, rfl⟩⟩⟩

/-! ### Lemmas about the logger lifecycle -/

theorem Logger_cached (s : AppState) (l : GomolBase) (h : s.logger = some l) :
    Logger s = (s, l) := by
  unfold Logger
  rw [h]

theorem Logger_fresh (s : AppState) (h : s.logger = none) :
    Logger s =
      ({ s with logger := some (freshLogger s), nextLoggerId := s.nextLoggerId + 1 },
       freshLogger s) := by
  unfold Logger
  rw [h]

theorem loggerCalls_cached (s : AppState) (l : GomolBase) (h : s.logger = some l) :
    ∀ n, loggerCalls s n = (s, List.replicate n l) := by
  intro n
  induction n with
  | zero => rfl
  | succ n ih =>
    unfold loggerCalls
    rw [Logger_cached s l h]
    simp only [ih, List.replicate_succ]

theorem loggerCalls_fresh (s : AppState) (h : s.logger = none) (n : Nat) :
    loggerCalls s (n + 1) =
      ({ s with logger := some (freshLogger s), nextLoggerId := s.nextLoggerId + 1 },
       List.replicate (n + 1) (freshLogger s)) := by
  unfold loggerCalls
  rw [Logger_fresh s h]
  dsimp only
  rw [loggerCalls_cached
      { s with logger := some (freshLogger s), nextLoggerId := s.nextLoggerId + 1 }
      (freshLogger s) rfl n]
  simp only [List.replicate_succ]

/-- C4: on a handle with no logger yet, any serialized sequence of `n ≥ 1`
`Logger()` calls hands every caller the identical instance, leaves that one
instance cached, and allocates exactly once. -/
theorem logger_exactly_once (s : AppState) (n : Nat) (h : s.logger = none)
    (hn : 1 ≤ n) :
    (∀ l ∈ (loggerCalls s n).2, ∀ l' ∈ (loggerCalls s n).2, l = l') ∧
    (loggerCalls s n).2.length = n ∧
    (loggerCalls s n).1.logger = some (freshLogger s) ∧
    (loggerCalls s n).1.nextLoggerId = s.nextLoggerId + 1 := by
  obtain ⟨m, rfl⟩ : ∃ m, n = m + 1 := ⟨n - 1, (Nat.succ_pred_eq_of_pos hn).symm⟩
  rw [loggerCalls_fresh s h m]
  refine ⟨?_, by simp, rfl, rfl⟩
  intro l hl l' hl'
  rw [List.eq_of_mem_replicate hl, List.eq_of_mem_replicate hl']

/-- C4 witness: three racing callers on the mocked handle all get logger `0`,
and the allocation counter advanced exactly once. -/
theorem logger_exactly_once_witness :
    sampleApp.logger = none ∧
    (loggerCalls sampleApp 3).2.length = 3 ∧
    (loggerCalls sampleApp 3).1.nextLoggerId = sampleApp.nextLoggerId + 1 :=
  ⟨rfl, (logger_exactly_once sampleApp 3 rfl (by decide)).2.1,
    (logger_exactly_once sampleApp 3 rfl (by decide)).2.2.2⟩

/-! ### Lemmas about the error channel -/

theorem ensureErrorChannel_some (s : AppState) (c : ErrChan) (h : s.errch = some c) :
    ensureErrorChannel s = s := by
  unfold ensureErrorChannel
  rw [h]

theorem ensureErrorChannel_none (s : AppState) (h : s.errch = none) :
    ensureErrorChannel s =
      { s with
        errch := some { id := s.nextChanId, capacity := 1, buffer := [], closed := false }
        nextChanId := s.nextChanId + 1 } := by
  unfold ensureErrorChannel
  rw [h]

theorem Errors_some (s : AppState) (c : ErrChan) (h : s.errch = some c) :
    Errors s = (s, c.id) := by
  unfold Errors
  rw [ensureErrorChannel_some s c h]
  dsimp only
  rw [h]

theorem errorsCalls_some (s : AppState) (c : ErrChan) (h : s.errch = some c) :
    ∀ n, errorsCalls s n = (s, List.replicate n c.id) := by
  intro n
  induction n with
  | zero => rfl
  | succ n ih =>
    unfold errorsCalls
    rw [Errors_some s c h]
    simp only [ih, List.replicate_succ]

theorem HandleError_fresh_none (s : AppState) (e : GoError) (h : s.errch = none) :
    HandleError s e =
      .ok { s with
        errch := some { id := s.nextChanId, capacity := 1, buffer := [e], closed := true }
        nextChanId := s.nextChanId + 1 } := by
  unfold HandleError
  rw [ensureErrorChannel_none s h]
  rfl

theorem HandleError_fresh_some (s : AppState) (c : ErrChan) (h : s.errch = some c)
    (hcap : c.capacity = 1) (hbuf : c.buffer = []) (hcl : c.closed = false) :
    HandleError s e =
      .ok { s with errch := some { c with buffer := [e], closed := true } } := by
  unfold HandleError
  rw [ensureErrorChannel_some s c h]
  dsimp only
  rw [h]
  dsimp only
  unfold chanSend
  rw [hcl, hcap, hbuf]
  rfl

theorem HandleError_ok_closed (s s' : AppState) (e : GoError)
    (h : HandleError s e = .ok s') :
    ∃ c, s'.errch = some c ∧ c.closed = true := by
  unfold HandleError at h
  dsimp only at h
  cases hc : (ensureErrorChannel s).errch with
  | none => rw [hc] at h; cases h
  | some c =>
    rw [hc] at h
    dsimp only at h
    cases hs : chanSend c e with
    | panicked m => rw [hs] at h; cases h
    | blocked => rw [hs] at h; cases h
    | ok c₁ =>
      rw [hs] at h
      cases h
      exact ⟨_, rfl, rfl⟩

theorem HandleError_closed (s : AppState) (c : ErrChan) (e : GoError)
    (h : s.errch = some c) (hcl : c.closed = true) :
    HandleError s e = .panicked "send on closed channel" := by
  unfold HandleError
  rw [ensureErrorChannel_some s c h]
  dsimp only
  rw [h]
  dsimp only
  unfold chanSend
  rw [hcl]
  rfl

/-! ### The claims about the error channel -/

/-- C5: once `HandleError e` has run on a fresh handle, the channel holds
exactly `e` and is closed: the first receive yields `(e, true)`, every later
receive yields the zero error and `false` (the drained closed channel is a
fixed point of `chanRecv`), and every `Errors()` caller — before or after —
gets the one channel identity. -/
theorem handleError_single_shot (s : AppState) (e : GoError) (h : errchFresh s) :
    ∃ s' c, HandleError s e = .ok s' ∧ s'.errch = some c ∧
      chanRecv c = some ((e, true), { c with buffer := [] }) ∧
      chanRecv { c with buffer := [] } =
        some ((nilError, false), { c with buffer := [] }) ∧
      ∀ n, (errorsCalls s' n).2 = List.replicate n c.id := by
  rcases h with h | ⟨c, h, hcap, hbuf, hcl⟩
  · refine ⟨_, _, HandleError_fresh_none s e h, rfl, rfl, rfl, ?_⟩
    intro n
    rw [errorsCalls_some _ _ rfl n]
  · refine ⟨_, _, HandleError_fresh_some s c h hcap hbuf hcl, rfl, rfl, rfl, ?_⟩
    intro n
    rw [errorsCalls_some _ _ rfl n]

/-- C5 witness: on the mocked handle, `HandleError (some "test error")`
yields a closed channel whose receives are `(some "test error", true)` then
`(nil, false)`. -/
theorem handleError_single_shot_witness :
    (sampleApp.errch = none) ∧
    ∃ s' c, HandleError sampleApp (some "test error") = .ok s' ∧
      s'.errch = some c ∧
      chanRecv c = some ((some "test error", true), { c with buffer := [] }) ∧
      chanRecv { c with buffer := [] } =
        some ((nilError, false), { c with buffer := [] }) ∧
      ∀ n, (errorsCalls s' n).2 = List.replicate n c.id :=
  ⟨rfl, handleError_single_shot sampleApp (some "test error") (Or.inl rfl)⟩

/-- C6: after one completed `HandleError`, a second `HandleError` with any
error panics with the Go runtime's closed-channel send panic. -/
theorem handleError_twice_panics (s s' : AppState) (e e₂ : GoError)
    (h : HandleError s e = .ok s') :
    HandleError s' e₂ = .panicked "send on closed channel" := by
  obtain ⟨c, hc, hcl⟩ := HandleError_ok_closed s s' e h
  exact HandleError_closed s' c e₂ hc hcl

/-- C6 witness: on the handle that already delivered `some "test error"`, a
second call panics. -/
theorem handleError_twice_panics_witness :
    HandleError sampleApp (some "test error") = .ok erroredApp ∧
    HandleError erroredApp (some "boom") = .panicked "send on closed channel" :=
  ⟨by decide,
    handleError_twice_panics sampleApp erroredApp (some "test error") (some "boom")
      (by decide)⟩

/-- C10: the channel is created with capacity one, so on a fresh handle the
single send of `HandleError` completes without any concurrent reader (it is
never `blocked`), and a reader at any later time still observes `(e, true)`
and then the closed-channel result. -/
theorem handleError_never_blocks (s : AppState) (e : GoError) (h : errchFresh s) :
    (∀ c, (ensureErrorChannel s).errch = some c → c.capacity = 1) ∧
    HandleError s e ≠ .blocked ∧
    ∃ s' c, HandleError s e = .ok s' ∧ s'.errch = some c ∧
      chanRecv c = some ((e, true), { c with buffer := [] }) ∧
      chanRecv { c with buffer := [] } =
        some ((nilError, false), { c with buffer := [] }) := by
  rcases h with h | ⟨c, h, hcap, hbuf, hcl⟩
  · refine ⟨?_, ?_, _, _, HandleError_fresh_none s e h, rfl, rfl, rfl⟩
    · rw [ensureErrorChannel_none s h]
      intro c hc
      cases hc
      rfl
    · rw [HandleError_fresh_none s e h]
      intro hcon
      cases hcon
  · refine ⟨?_, ?_, _, _, HandleError_fresh_some s c h hcap hbuf hcl, rfl, rfl, rfl⟩
    · rw [ensureErrorChannel_some s c h]
      intro c' hc'
      rw [h] at hc'
      cases hc'
      exact hcap
    · rw [HandleError_fresh_some s c h hcap hbuf hcl]
      intro hcon
      cases hcon

/-- C10 witness: the concrete fresh handle, the created channel has capacity
one and the call returns `.ok`. -/
theorem handleError_never_blocks_witness :
    (∀ c, (ensureErrorChannel sampleApp).errch = some c → c.capacity = 1) ∧
    HandleError sampleApp (some "test error") ≠ HandleErrorResult.blocked :=
  ⟨(handleError_never_blocks sampleApp (some "test error") (Or.inl rfl)).1,
    (handleError_never_blocks sampleApp (some "test error") (Or.inl rfl)).2.1⟩

/-! ### The claims about `Exit` -/

theorem Exit_state_logger (s : AppState) (code : Int) :
    (Exit s code).state.logger = none := by
  unfold Exit
  cases hl : s.logger <;> cases s.hasExitHandler <;> cases s.exitHandlerReturns <;>
    first
    | rfl
    | exact hl

theorem Exit_events_handler (s : AppState) (code : Int)
    (hh : s.hasExitHandler = true) :
    (Exit s code).events =
      (match s.logger with
        | some l => if l.initialized then [ExitEvent.shutdownLoggers l.id] else []
        | none => []) ++ [ExitEvent.exitHandlerCall code] := by
  unfold Exit
  rw [hh]
  cases s.logger with
  | none => cases s.exitHandlerReturns <;> rfl
  | some l => cases l.initialized <;> cases s.exitHandlerReturns <;> rfl

/-- C7: with a configured handler, `Exit code` calls the handler with that
very code, leaves the logger reference reset to absent, and its event trace
is `shutdown; handler` when an initialized logger existed and just `handler`
when none did — the teardown strictly precedes the handler call. -/
theorem exit_teardown_then_handler (s : AppState) (code : Int)
    (hh : s.hasExitHandler = true) :
    (Exit s code).state.logger = none ∧
    ExitEvent.exitHandlerCall code ∈ (Exit s code).events ∧
    (∀ l, s.logger = some l → l.initialized = true →
      (Exit s code).events = [.shutdownLoggers l.id, .exitHandlerCall code]) ∧
    (s.logger = none → (Exit s code).events = [.exitHandlerCall code]) := by
  have hev := Exit_events_handler s code hh
  refine ⟨Exit_state_logger s code, ?_, ?_, ?_⟩
  · rw [hev]
    simp
  · intro l hll hinit
    rw [hev, hll]
    dsimp only
    rw [hinit]
    rfl
  · intro hn
    rw [hev, hn]
    rfl

/-- C7 witness: on the handle holding an initialized logger, `Exit 255`
shuts the logger down, resets it, then calls the handler with 255; on the
logger-free handle it only calls the handler. -/
theorem exit_teardown_then_handler_witness :
    (Exit loggedApp 255).events =
      [ExitEvent.shutdownLoggers 0, ExitEvent.exitHandlerCall 255] ∧
    (Exit loggedApp 255).state.logger = none ∧
    (Exit sampleApp 255).events = [ExitEvent.exitHandlerCall 255] :=
  ⟨(exit_teardown_then_handler loggedApp 255 rfl).2.2.1
      { id := 0, timestampPrefix := false, initialized := true } rfl rfl,
    (exit_teardown_then_handler loggedApp 255 rfl).1,
    (exit_teardown_then_handler sampleApp 255 rfl).2.2.2 rfl⟩

/-- C8: when the configured handler returns control, `Exit` panics with
`"exit handler returned"` after having invoked the handler. -/
theorem exit_handler_returned_panics (s : AppState) (code : Int)
    (hh : s.hasExitHandler = true) (hr : s.exitHandlerReturns = true) :
    (Exit s code).outcome = .panicked "exit handler returned" ∧
    ExitEvent.exitHandlerCall code ∈ (Exit s code).events := by
  constructor
  · unfold Exit
    rw [hh, hr]
    rfl
  · rw [Exit_events_handler s code hh]
    simp

/-- C8 witness: the handle whose handler returns makes `Exit 255` panic. -/
theorem exit_handler_returned_panics_witness :
    (Exit returningApp 255).outcome = ExitOutcome.panicked "exit handler returned" :=
  (exit_handler_returned_panics returningApp 255 rfl rfl).1

/-- C9: no public operation touches `Arguments` or `Environment`: `Logger`,
`ensureErrorChannel`, `Errors`, `HandleError`, `Exit` all preserve both
fields, and `LookupEnv` relates any pre-state only to itself. -/
theorem operations_preserve_arguments_environment (s : AppState) :
    ((Logger s).1.Arguments = s.Arguments ∧
      (Logger s).1.Environment = s.Environment) ∧
    ((ensureErrorChannel s).Arguments = s.Arguments ∧
      (ensureErrorChannel s).Environment = s.Environment) ∧
    ((Errors s).1.Arguments = s.Arguments ∧
      (Errors s).1.Environment = s.Environment) ∧
    (∀ e s', HandleError s e = .ok s' →
      s'.Arguments = s.Arguments ∧ s'.Environment = s.Environment) ∧
    (∀ code, (Exit s code).state.Arguments = s.Arguments ∧
      (Exit s code).state.Environment = s.Environment) ∧
    (∀ key out s', LookupEnv s key out s' →
      s'.Arguments = s.Arguments ∧ s'.Environment = s.Environment) := by
  have hens : (ensureErrorChannel s).Arguments = s.Arguments ∧
      (ensureErrorChannel s).Environment = s.Environment := by
    unfold ensureErrorChannel
    cases s.errch <;> exact ⟨rfl, rfl⟩
  refine ⟨?_, hens, ?_, ?_, ?_, ?_⟩
  · unfold Logger
    cases s.logger <;> exact ⟨rfl, rfl⟩
  · unfold Errors
    dsimp only
    cases (ensureErrorChannel s).errch <;> exact hens
  · intro e s' h
    unfold HandleError at h
    dsimp only at h
    cases hc : (ensureErrorChannel s).errch with
    | none => rw [hc] at h; cases h
    | some c =>
      rw [hc] at h
      dsimp only at h
      cases hs : chanSend c e with
      | panicked m => rw [hs] at h; cases h
      | blocked => rw [hs] at h; cases h
      | ok c₁ =>
        rw [hs] at h
        cases h
        exact hens
  · intro code
    unfold Exit
    cases s.logger <;> cases s.hasExitHandler <;> cases s.exitHandlerReturns <;>
      exact ⟨rfl, rfl⟩
  · rintro key out s' ⟨rfl, -⟩
    exact ⟨rfl, rfl⟩

/-- C9 witness: each operation evaluated on the mocked handle (with a
concrete successful `HandleError` and a concrete `LookupEnv` outcome). -/
theorem operations_preserve_arguments_environment_witness :
    (Logger sampleApp).1.Arguments = sampleApp.Arguments ∧
    (Errors sampleApp).1.Environment = sampleApp.Environment ∧
    erroredApp.Environment = sampleApp.Environment ∧
    (Exit sampleApp 255).state.Arguments = sampleApp.Arguments ∧
    sampleApp.Environment = sampleApp.Environment :=
  ⟨(operations_preserve_arguments_environment sampleApp).1.1,
    (operations_preserve_arguments_environment sampleApp).2.2.1.2,
    ((operations_preserve_arguments_environment sampleApp).2.2.2.1
      (some "test error") erroredApp (by decide)).2,
    ((operations_preserve_arguments_environment sampleApp).2.2.2.2.1 255).1,
    ((operations_preserve_arguments_environment sampleApp).2.2.2.2.2 "PATH"
      ("/bin", true) sampleApp ⟨rfl, Or.inl ⟨"/bin", by decide, rfl⟩⟩).2⟩

end App
